import Mathlib

/-!
Shallow embedding of the seo-content-agent backend (src/backend/main.py and
src/backend/ai_service.py), covering the data model, the Catalog Client
(ShopifyService), the Scan operation (scan_all), the Batch Processor
(process_pending_items), the pause toggle (toggle_pause) and the manual
generation endpoint (generate_content).

Modelling conventions, derived from the source:
- SQLAlchemy rows become Lean structures; a table is a list of rows.
- Wall-clock timestamps (datetime.utcnow) are abstracted as a single Nat
  parameter `now` per operation.
- External network calls (Shopify HTTP, OpenAI) are oracles passed in as
  data or functions: the value a call would produce for a given item.
- The session from SessionLocal (main.py lines 59-60) has autoflush=False:
  queries inside a request see only committed rows, never the session's
  still-pending adds.  scan_all commits once at main.py line 1054, so the
  per-item membership query (line 998) is modelled as a lookup in the
  committed table only.
- The products.shopify_id and collections.shopify_id columns are declared
  unique (main.py lines 70, 88), so a commit whose pending inserts collide
  with committed rows or with each other raises IntegrityError; the
  surrounding except re-raises as HTTP 500 (line 1078) and nothing of the
  transaction persists.  This is modelled by the commit check in scan_all.
- APILog rows (log_api_action) are write-only logging and are omitted; the
  intermediate mid-item status := processing commit of the Batch Processor
  (main.py lines 657-659) is superseded within the same run and only the
  end-of-run row state is modelled.
-/

namespace SeoAgent

/-- Item lifecycle states stored in the status column. -/
inductive Status where
  | pending
  | processing
  | completed
  | failed
deriving DecidableEq, Repr

/-- A row of the products table (main.py lines 66-82).  The integer
primary key is omitted; shopify_id identifies the row. -/
structure ProductRow where
  shopify_id : String
  title : String
  handle : String
  product_type : String
  vendor : String
  tags : String
  status : Status
  seo_written : Bool
  geo_optimized : Bool
  keywords_researched : Option (List String)
  created_at : Nat
  updated_at : Nat
  processed_at : Option Nat
deriving DecidableEq, Repr

/-- A row of the collections table (main.py lines 84-98). -/
structure CollectionRow where
  shopify_id : String
  title : String
  handle : String
  products_count : Nat
  status : Status
  seo_written : Bool
  geo_optimized : Bool
  keywords_researched : Option (List String)
  created_at : Nat
  updated_at : Nat
  processed_at : Option Nat
deriving DecidableEq, Repr

/-- A row of the seo_content audit table (main.py lines 115-134). -/
structure SEORecord where
  item_id : String
  item_type : String
  item_title : String
  seo_title : String
  meta_description : String
  ai_description : String
  keywords_used : List String
  faq_content : List (String × String)
  has_schema : Bool
  voice_search_optimized : Bool
  featured_snippet_content : String
  generated_at : Nat
deriving DecidableEq, Repr

/-- The singleton system_state row (main.py lines 136-146). -/
structure SystemStateRec where
  is_paused : Bool
  auto_pause_triggered : Bool
  last_scan : Option Nat
  products_found_in_last_scan : Nat
  collections_found_in_last_scan : Nat
  total_items_processed : Nat
  geo_optimization_enabled : Bool
deriving DecidableEq, Repr

/-- The state created by init_system_state (main.py lines 204-215):
is_paused False, geo enabled, counters zero, remaining columns at their
declared defaults. -/
def initState : SystemStateRec :=
  { is_paused := false
    auto_pause_triggered := false
    last_scan := none
    products_found_in_last_scan := 0
    collections_found_in_last_scan := 0
    total_items_processed := 0
    geo_optimization_enabled := true }

/-- The whole persistent store: three tables plus the singleton state. -/
structure DB where
  products : List ProductRow
  collections : List CollectionRow
  seo : List SEORecord
  state : SystemStateRec
deriving DecidableEq, Repr

/-- The empty store right after table creation and init_system_state. -/
def db0 : DB :=
  { products := [], collections := [], seo := [], state := initState }

/-- One product object of a Shopify products.json response; the fields
scan_all reads (main.py lines 997-1007).  Shopify ids are JSON integers;
the code stores str(id). -/
structure ProdInfo where
  id : Nat
  title : String
  handle : String
  product_type : String
  vendor : String
  tags : String
deriving DecidableEq, Repr

/-- One collection object of a smart/custom collections response
(main.py lines 1024-1032). -/
structure CollInfo where
  id : Nat
  title : String
  handle : String
  products_count : Nat
deriving DecidableEq, Repr

/-- An HTTP page of products: status code plus body list. -/
structure ProductsPage where
  status : Nat
  products : List ProdInfo
deriving DecidableEq, Repr

/-- An HTTP page of collections. -/
structure CollectionsPage where
  status : Nat
  collections : List CollInfo
deriving DecidableEq, Repr

/-- Oracle for the Shopify products endpoint: what one GET
products.json request with the given limit and optional since_id
returns.  A transport exception is modelled as a non-200 status, since
both paths yield the empty result in get_products. -/
structure ProductsProvider where
  configured : Bool
  fetch : Nat → Option Nat → ProductsPage

/-- Oracle for the two Shopify collections endpoints; get_collections
issues exactly one smart_collections and one custom_collections request,
both with the fixed limit 250. -/
structure CollectionsProvider where
  configured : Bool
  smart : CollectionsPage
  custom : CollectionsPage

/-- ShopifyService.get_products (main.py lines 260-298): a single GET
with the given limit and optional since_id; 200 yields the body's
products, anything else yields the empty list.  There is no loop: one
request, one page. -/
def get_products (svc : ProductsProvider) (limit : Nat) (since_id : Option Nat) :
    List ProdInfo :=
  if svc.configured = false then []
  else
    let resp := svc.fetch limit since_id
    if resp.status = 200 then resp.products else []

/-- ShopifyService.get_collections (main.py lines 300-345): one smart
and one custom collections request, concatenated; each non-200 page
contributes nothing. -/
def get_collections (svc : CollectionsProvider) : List CollInfo :=
  if svc.configured = false then []
  else
    (if svc.smart.status = 200 then svc.smart.collections else []) ++
    (if svc.custom.status = 200 then svc.custom.collections else [])

/-- The Product row scan_all builds for an unseen product (main.py lines
1001-1010): status pending, flags false, timestamps defaulted to now. -/
def mkProductRow (now : Nat) (info : ProdInfo) : ProductRow :=
  { shopify_id := toString info.id
    title := info.title
    handle := info.handle
    product_type := info.product_type
    vendor := info.vendor
    tags := info.tags
    status := Status.pending
    seo_written := false
    geo_optimized := false
    keywords_researched := none
    created_at := now
    updated_at := now
    processed_at := none }

/-- The Collection row scan_all builds for an unseen collection
(main.py lines 1028-1035). -/
def mkCollectionRow (now : Nat) (info : CollInfo) : CollectionRow :=
  { shopify_id := toString info.id
    title := info.title
    handle := info.handle
    products_count := info.products_count
    status := Status.pending
    seo_written := false
    geo_optimized := false
    keywords_researched := none
    created_at := now
    updated_at := now
    processed_at := none }

/-- Accumulated result of one discovery pass: the rows added to the
session, the new-item count and the already-known count. -/
structure PassResult (ρ : Type) where
  adds : List ρ
  newCount : Nat
  existingCount : Nat
deriving DecidableEq, Repr

/-- The product loop of scan_all (main.py lines 996-1015).  The
membership query sees only the committed table (autoflush=False, no
commit before line 1054), so the check never sees earlier adds of the
same pass. -/
def passProducts (committed : List ProductRow) (now : Nat)
    (acc : PassResult ProductRow) : List ProdInfo → PassResult ProductRow
  | [] => acc
  | info :: rest =>
    if committed.any (fun r => decide (r.shopify_id = toString info.id)) then
      passProducts committed now
        { acc with existingCount := acc.existingCount + 1 } rest
    else
      passProducts committed now
        { acc with adds := acc.adds ++ [mkProductRow now info]
                   newCount := acc.newCount + 1 } rest

/-- The collection loop of scan_all (main.py lines 1023-1040). -/
def passCollections (committed : List CollectionRow) (now : Nat)
    (acc : PassResult CollectionRow) : List CollInfo → PassResult CollectionRow
  | [] => acc
  | info :: rest =>
    if committed.any (fun r => decide (r.shopify_id = toString info.id)) then
      passCollections committed now
        { acc with existingCount := acc.existingCount + 1 } rest
    else
      passCollections committed now
        { acc with adds := acc.adds ++ [mkCollectionRow now info]
                   newCount := acc.newCount + 1 } rest

/-- Boolean no-duplicates check over a list of ids. -/
def nodupIds : List String → Bool
  | [] => true
  | x :: xs => (!xs.contains x) && nodupIds xs

/-- The unique constraint on shopify_id: a commit whose pending inserts
collide with a committed id, or with each other, raises IntegrityError. -/
def insertViolates (existingIds newIds : List String) : Bool :=
  newIds.any (fun i => existingIds.contains i) || !nodupIds newIds

/-- Product pass of a scan against a given store and provider. -/
def scanPR (psvc : ProductsProvider) (now : Nat) (db : DB) :
    PassResult ProductRow :=
  passProducts db.products now ⟨[], 0, 0⟩ (get_products psvc 250 none)

/-- Collection pass of a scan. -/
def scanCR (csvc : CollectionsProvider) (now : Nat) (db : DB) :
    PassResult CollectionRow :=
  passCollections db.collections now ⟨[], 0, 0⟩ (get_collections csvc)

/-- total_new of main.py line 1048. -/
def scanTotalNew (psvc : ProductsProvider) (csvc : CollectionsProvider)
    (now : Nat) (db : DB) : Nat :=
  (scanPR psvc now db).newCount + (scanCR csvc now db).newCount

/-- The system-state update of main.py lines 1043-1052: scan stats
unconditionally, and the circuit breaker sets both flags when total_new
exceeds 100. -/
def scanState (psvc : ProductsProvider) (csvc : CollectionsProvider)
    (now : Nat) (db : DB) : SystemStateRec :=
  let total_new := scanTotalNew psvc csvc now db
  { db.state with
    last_scan := some now
    products_found_in_last_scan := (scanPR psvc now db).newCount
    collections_found_in_last_scan := (scanCR csvc now db).newCount
    is_paused := if 100 < total_new then true else db.state.is_paused
    auto_pause_triggered :=
      if 100 < total_new then true else db.state.auto_pause_triggered }

/-- Whether the commit at main.py line 1054 violates a unique index. -/
def scanViolates (psvc : ProductsProvider) (csvc : CollectionsProvider)
    (now : Nat) (db : DB) : Bool :=
  insertViolates (db.products.map (fun r => r.shopify_id))
      ((scanPR psvc now db).adds.map (fun r => r.shopify_id)) ||
  insertViolates (db.collections.map (fun r => r.shopify_id))
      ((scanCR csvc now db).adds.map (fun r => r.shopify_id))

/-- The JSON body scan_all returns on success (main.py lines 1065-1073). -/
structure ScanOk where
  products_found : Nat
  collections_found : Nat
  total_products : Nat
  total_collections : Nat
  existing_products : Nat
  existing_collections : Nat
  geo_processing_triggered : Bool
deriving DecidableEq, Repr

/-- The three observable outcomes of POST /api/scan: the paused refusal
body, a success body, or the HTTP 500 raised when the commit fails. -/
inductive ScanResp where
  | pausedErr
  | ok (r : ScanOk)
  | httpError
deriving DecidableEq, Repr

/-- scan_all (main.py lines 974-1078): refuse when paused; one product
page and one collections fetch; insert unseen items as pending; update
scan stats; trip the breaker above 100 new items; commit everything at
once.  The commit failing (duplicate shopify_id among the adds) aborts
the whole transaction.  The auto-trigger of process_pending_items is a
background task, modelled as a separate operation (see applyOp). -/
def scan_all (psvc : ProductsProvider) (csvc : CollectionsProvider)
    (now : Nat) (db : DB) : DB × ScanResp :=
  if db.state.is_paused then (db, ScanResp.pausedErr)
  else if scanViolates psvc csvc now db then (db, ScanResp.httpError)
  else
    let pr := scanPR psvc now db
    let cr := scanCR csvc now db
    let st := scanState psvc csvc now db
    ({ db with
        products := db.products ++ pr.adds
        collections := db.collections ++ cr.adds
        state := st },
     ScanResp.ok
       { products_found := pr.newCount
         collections_found := cr.newCount
         total_products := (get_products psvc 250 none).length
         total_collections := (get_collections csvc).length
         existing_products := pr.existingCount
         existing_collections := cr.existingCount
         geo_processing_triggered :=
           decide (0 < pr.newCount + cr.newCount) && !st.is_paused })

/-- The external calls an operation makes, in order, for tracing which
generation mode and write-back steps actually run. -/
inductive ExtCall where
  | researchKeywords (id : String)
  | generateGeoContent (id : String)
  | updateProduct (id : String)
deriving DecidableEq, Repr

/-- True exactly for a content-generation call. -/
def isGenerationCall : ExtCall → Bool
  | ExtCall.generateGeoContent _ => true
  | _ => false

/-- The structured object GEOAIService.generate_geo_content assembles
from a successfully parsed model reply (main.py lines 589-608). -/
structure GeoContent where
  seo_title : String
  meta_description : String
  ai_description : String
  faq_content : List (String × String)
  has_schema : Bool
  voice_search_optimized : Bool
  featured_snippet_content : String
deriving DecidableEq, Repr

/-- The post-parse normalisation of generate_geo_content (main.py lines
591-602): truncate seo_title to 60 and meta_description to 155
characters, and set voice_search_optimized from the FAQ count. -/
def postprocessGeo (c : GeoContent) : GeoContent :=
  { c with
    seo_title := c.seo_title.take 60
    meta_description := c.meta_description.take 155
    voice_search_optimized := decide (3 ≤ c.faq_content.length) }

/-- Oracles for the OpenAI-backed GEOAIService and the Shopify update,
per item id:
- kwOf: the keyword list research_geo_keywords ends up returning; any
  exception or missing client is already folded to [] inside that method
  (main.py lines 434-436, 494-496);
- genOf: the parsed reply of generate_geo_content; none models the
  exception path (unparsable JSON, transport error) which returns the
  empty dict (main.py lines 610-612);
- updateOk: the boolean ShopifyService.update_product reports
  (main.py lines 347-401: False on non-configured, non-200 or
  exception). -/
structure ProcEnv where
  kwOf : String → List String
  genOf : String → Option GeoContent
  updateOk : String → Bool

/-- The seo_content row built on a successful generation (main.py lines
686-698, 769-781, 1228-1240). -/
def mkSeoRecord (now : Nat) (itemType itemId itemTitle : String)
    (kws : List String) (c : GeoContent) : SEORecord :=
  { item_id := itemId
    item_type := itemType
    item_title := itemTitle
    seo_title := c.seo_title
    meta_description := c.meta_description
    ai_description := c.ai_description
    keywords_used := kws
    faq_content := c.faq_content
    has_schema := c.has_schema
    voice_search_optimized := c.voice_search_optimized
    featured_snippet_content := c.featured_snippet_content
    generated_at := now }

/-- The end-of-iteration effect of one product in the Batch Processor. -/
structure ProcItemResult where
  row : ProductRow
  audit : Option SEORecord
  shopifyUpdated : Bool
  calls : List ExtCall
deriving Repr

/-- One iteration of the product loop of process_pending_items (main.py
lines 654-739).  Empty keywords or an empty generation result raise and
the except block marks the row failed; otherwise the audit row is added,
the write-back is attempted only when ai_description is nonempty, and
the row is marked completed regardless of the write-back result (the
boolean is only logged).  update_product never raises (it returns
False), so nothing after the audit add can fail. -/
def processOneProduct (env : ProcEnv) (now : Nat) (p : ProductRow) :
    ProcItemResult :=
  let kws := env.kwOf p.shopify_id
  if kws = [] then
    { row := { p with status := Status.failed, updated_at := now }
      audit := none
      shopifyUpdated := false
      calls := [ExtCall.researchKeywords p.shopify_id] }
  else
    match env.genOf p.shopify_id with
    | none =>
      { row := { p with status := Status.failed, updated_at := now }
        audit := none
        shopifyUpdated := false
        calls := [ExtCall.researchKeywords p.shopify_id,
                  ExtCall.generateGeoContent p.shopify_id] }
    | some raw =>
      let c := postprocessGeo raw
      { row := { p with
          status := Status.completed
          seo_written := true
          geo_optimized := true
          processed_at := some now
          keywords_researched := some kws
          updated_at := now }
        audit := some (mkSeoRecord now "product" p.shopify_id p.title kws c)
        shopifyUpdated :=
          if c.ai_description = "" then false else env.updateOk p.shopify_id
        calls := [ExtCall.researchKeywords p.shopify_id,
                  ExtCall.generateGeoContent p.shopify_id] ++
                 (if c.ai_description = "" then []
                  else [ExtCall.updateProduct p.shopify_id]) }

/-- The end-of-iteration effect of one collection. -/
structure ProcCollResult where
  row : CollectionRow
  audit : Option SEORecord
  calls : List ExtCall
deriving Repr

/-- One iteration of the collection loop of process_pending_items
(main.py lines 742-800).  Same shape as the product loop but with no
Shopify write-back at all. -/
def processOneCollection (env : ProcEnv) (now : Nat) (c : CollectionRow) :
    ProcCollResult :=
  let kws := env.kwOf c.shopify_id
  if kws = [] then
    { row := { c with status := Status.failed, updated_at := now }
      audit := none
      calls := [ExtCall.researchKeywords c.shopify_id] }
  else
    match env.genOf c.shopify_id with
    | none =>
      { row := { c with status := Status.failed, updated_at := now }
        audit := none
        calls := [ExtCall.researchKeywords c.shopify_id,
                  ExtCall.generateGeoContent c.shopify_id] }
    | some raw =>
      let g := postprocessGeo raw
      { row := { c with
          status := Status.completed
          seo_written := true
          geo_optimized := true
          processed_at := some now
          keywords_researched := some kws
          updated_at := now }
        audit := some (mkSeoRecord now "collection" c.shopify_id c.title kws g)
        calls := [ExtCall.researchKeywords c.shopify_id,
                  ExtCall.generateGeoContent c.shopify_id] }

/-- Writing a mutated ORM row back into its table: the row with the same
shopify_id is replaced (ids are unique by the table's constraint). -/
def setProductById (tbl : List ProductRow) (r : ProductRow) :
    List ProductRow :=
  tbl.map (fun q => if q.shopify_id = r.shopify_id then r else q)

/-- Same for collection rows. -/
def setCollectionById (tbl : List CollectionRow) (r : CollectionRow) :
    List CollectionRow :=
  tbl.map (fun q => if q.shopify_id = r.shopify_id then r else q)

/-- The bounded slice of the product loop (main.py lines 641-643):
status pending only, limit 2. -/
def selectedProducts (db : DB) : List ProductRow :=
  (db.products.filter (fun p => decide (p.status = Status.pending))).take 2

/-- The bounded slice of the collection loop (main.py lines 645-647):
status pending only, limit 1. -/
def selectedCollections (db : DB) : List CollectionRow :=
  (db.collections.filter (fun c => decide (c.status = Status.pending))).take 1

/-- Accumulator for the product loop. -/
structure PSliceAcc where
  tbl : List ProductRow
  seo : List SEORecord
  nDone : Nat
  calls : List ExtCall

/-- Sequential execution of the product slice: each item's row is
written back, its audit row (if any) appended, the success counter
bumped on completion, and the loop always continues to the next item
(every iteration's failure is swallowed by its except block). -/
def runProductSlice (env : ProcEnv) (now : Nat) :
    PSliceAcc → List ProductRow → PSliceAcc
  | acc, [] => acc
  | acc, p :: rest =>
    let r := processOneProduct env now p
    runProductSlice env now
      { tbl := setProductById acc.tbl r.row
        seo := acc.seo ++ r.audit.toList
        nDone := acc.nDone + (if r.row.status = Status.completed then 1 else 0)
        calls := acc.calls ++ r.calls } rest

/-- Accumulator for the collection loop. -/
structure CSliceAcc where
  tbl : List CollectionRow
  seo : List SEORecord
  nDone : Nat
  calls : List ExtCall

/-- Sequential execution of the collection slice. -/
def runCollectionSlice (env : ProcEnv) (now : Nat) :
    CSliceAcc → List CollectionRow → CSliceAcc
  | acc, [] => acc
  | acc, c :: rest =>
    let r := processOneCollection env now c
    runCollectionSlice env now
      { tbl := setCollectionById acc.tbl r.row
        seo := acc.seo ++ r.audit.toList
        nDone := acc.nDone + (if r.row.status = Status.completed then 1 else 0)
        calls := acc.calls ++ r.calls } rest

/-- process_pending_items (main.py lines 619-818): refuse when paused or
when GEO optimisation is disabled; otherwise process the bounded pending
slices sequentially and add the completed count to the state's total.
Returns the final store and the trace of external calls made. -/
def process_pending_items (env : ProcEnv) (now : Nat) (db : DB) :
    DB × List ExtCall :=
  if db.state.is_paused then (db, [])
  else if db.state.geo_optimization_enabled = false then (db, [])
  else
    let accP := runProductSlice env now
      ⟨db.products, db.seo, 0, []⟩ (selectedProducts db)
    let accC := runCollectionSlice env now
      ⟨db.collections, accP.seo, accP.nDone, accP.calls⟩
      (selectedCollections db)
    ({ db with
        products := accP.tbl
        collections := accC.tbl
        seo := accC.seo
        state := { db.state with
          total_items_processed :=
            db.state.total_items_processed + accC.nDone } },
     accC.calls)

/-- toggle_pause (main.py lines 1087-1101): flip is_paused and
unconditionally clear auto_pause_triggered. -/
def toggle_pause (db : DB) : DB :=
  { db with state := { db.state with
      is_paused := !db.state.is_paused
      auto_pause_triggered := false } }

/-- The body of a POST /api/generate-content request. -/
structure GenRequest where
  item_id : String
  item_type : String
deriving DecidableEq, Repr

/-- Observable outcome of generate_content: 404, the success body, or
the failure body returned when generation yields nothing. -/
inductive GenResp where
  | notFound
  | success
  | failure
deriving DecidableEq, Repr

/-- The row lookup of generate_content (main.py lines 1205-1208). -/
def findProduct (db : DB) (id : String) : Option ProductRow :=
  db.products.find? (fun p => decide (p.shopify_id = id))

/-- Collection variant of the lookup. -/
def findCollection (db : DB) (id : String) : Option CollectionRow :=
  db.collections.find? (fun c => decide (c.shopify_id = id))

/-- generate_content (main.py lines 1200-1264): look the item up by kind
and id (404 when absent), research keywords and generate content with no
pause check, and on a nonempty content object append the audit row and
mark the item completed with seo_written — without ever calling the
Shopify update.  An empty keyword list is not checked here; only the
content object's truthiness decides, and a parsed reply is always
truthy after the faq_content/voice normalisation. -/
def generate_content (env : ProcEnv) (now : Nat) (db : DB)
    (req : GenRequest) : DB × GenResp × List ExtCall :=
  if req.item_type = "product" then
    match findProduct db req.item_id with
    | none => (db, GenResp.notFound, [])
    | some p =>
      let kws := env.kwOf req.item_id
      let calls := [ExtCall.researchKeywords req.item_id,
                    ExtCall.generateGeoContent req.item_id]
      match env.genOf req.item_id with
      | some raw =>
        let c := postprocessGeo raw
        ({ db with
            products := setProductById db.products
              { p with
                status := Status.completed
                seo_written := true
                geo_optimized := true
                processed_at := some now
                keywords_researched := some kws }
            seo := db.seo ++
              [mkSeoRecord now req.item_type req.item_id p.title kws c] },
         GenResp.success, calls)
      | none => (db, GenResp.failure, calls)
  else if req.item_type = "collection" then
    match findCollection db req.item_id with
    | none => (db, GenResp.notFound, [])
    | some cl =>
      let kws := env.kwOf req.item_id
      let calls := [ExtCall.researchKeywords req.item_id,
                    ExtCall.generateGeoContent req.item_id]
      match env.genOf req.item_id with
      | some raw =>
        let c := postprocessGeo raw
        ({ db with
            collections := setCollectionById db.collections
              { cl with
                status := Status.completed
                seo_written := true
                geo_optimized := true
                processed_at := some now
                keywords_researched := some kws }
            seo := db.seo ++
              [mkSeoRecord now req.item_type req.item_id cl.title kws c] },
         GenResp.success, calls)
      | none => (db, GenResp.failure, calls)
  else (db, GenResp.notFound, [])

/-- The legacy AIContentGenerator client (src/backend/ai_service.py):
structured content with an alt_text field. -/
structure AIGenContent where
  seo_title : String
  meta_description : String
  ai_description : String
  alt_text : String
deriving DecidableEq, Repr

/-- The optional fields a parsed reply object may carry
(ai_service.py lines 83-88 read them with .get defaults). -/
structure AIGenParsed where
  seo_title : Option String
  meta_description : Option String
  ai_description : Option String
  alt_text : Option String
deriving DecidableEq, Repr

/-- AIContentGenerator._generate_fallback_content (ai_service.py lines
94-104): a deterministic object synthesised from title and vendor. -/
def aiGenFallbackContent (title vendor : String) : AIGenContent :=
  { seo_title := title.take 60
    meta_description :=
      "Shop " ++ title ++ " from " ++ vendor ++
      ". High quality, fast shipping, great prices."
    ai_description :=
      "<p>" ++ title ++ " from " ++ vendor ++
      ".</p><p>Premium quality product available now.</p>"
    alt_text := title }

/-- AIContentGenerator._parse_response (ai_service.py lines 76-92): the
regex extracts the first brace-delimited substring and json.loads parses
it; that whole step is modelled by the parsed argument (some = a match
that parsed, none = no match or a parse exception).  On success the
fields are read with defaults and truncated; otherwise the deterministic
fallback is returned.  There is no retry. -/
def aiGenParseResponse (parsed : Option AIGenParsed)
    (title vendor : String) : AIGenContent :=
  match parsed with
  | some r =>
    { seo_title := (r.seo_title.getD title).take 60
      meta_description := (r.meta_description.getD "").take 155
      ai_description := r.ai_description.getD ""
      alt_text := r.alt_text.getD title }
  | none => aiGenFallbackContent title vendor

/-- The operations that mutate the store, each carrying the oracles its
network calls consume.  The background auto-trigger at the end of a
successful scan (main.py line 1059) runs process_pending_items later, so
it is covered by a subsequent processOp step. -/
inductive Op where
  | scanOp (psvc : ProductsProvider) (csvc : CollectionsProvider) (now : Nat)
  | processOp (env : ProcEnv) (now : Nat)
  | toggleOp
  | generateOp (env : ProcEnv) (req : GenRequest) (now : Nat)

/-- The store each operation leaves behind. -/
def applyOp (db : DB) : Op → DB
  | Op.scanOp psvc csvc now => (scan_all psvc csvc now db).1
  | Op.processOp env now => (process_pending_items env now db).1
  | Op.toggleOp => toggle_pause db
  | Op.generateOp env req now => (generate_content env now db req).1

/-- Stores reachable from the freshly initialised one by any sequence of
endpoint invocations. -/
inductive Reachable : DB → Prop where
  | init : Reachable db0
  | next (db : DB) (op : Op) : Reachable db → Reachable (applyOp db op)

/-! Concrete stores, providers and oracles used to evaluate the
operations on explicit inputs. -/

/-- A product row with the given id and status and fixed filler fields. -/
def sampleProduct (id : String) (st : Status) : ProductRow :=
  { shopify_id := id
    title := "T" ++ id
    handle := "h"
    product_type := "pt"
    vendor := "v"
    tags := ""
    status := st
    seo_written := false
    geo_optimized := false
    keywords_researched := none
    created_at := 0
    updated_at := 0
    processed_at := none }

/-- A parsed generation result with a nonempty ai_description, so the
Batch Processor reaches the write-back step. -/
def geoSample : GeoContent :=
  { seo_title := "S"
    meta_description := "M"
    ai_description := "<p>d</p>"
    faq_content := []
    has_schema := false
    voice_search_optimized := false
    featured_snippet_content := "" }

/-- Oracles where every call succeeds. -/
def envOk : ProcEnv :=
  { kwOf := fun _ => ["k"], genOf := fun _ => some geoSample,
    updateOk := fun _ => true }

/-- Oracles where generation succeeds but every Shopify update reports
failure. -/
def envNoWriteback : ProcEnv :=
  { kwOf := fun _ => ["k"], genOf := fun _ => some geoSample,
    updateOk := fun _ => false }

/-- Oracles where the model reply is unparsable however often it is
requested: generate_geo_content always takes its exception path. -/
def envUnparsable : ProcEnv :=
  { kwOf := fun _ => ["k"], genOf := fun _ => none,
    updateOk := fun _ => true }

/-- Oracles that fail exactly for item id 3 (keyword research comes back
empty there, raising inside the processing loop). -/
def envFailAt3 : ProcEnv :=
  { kwOf := fun id => if id = "3" then [] else ["k"],
    genOf := fun _ => some geoSample, updateOk := fun _ => true }

/-- Oracles that fail exactly for item id 1. -/
def envFailAt1 : ProcEnv :=
  { kwOf := fun id => if id = "1" then [] else ["k"],
    genOf := fun _ => some geoSample, updateOk := fun _ => true }

/-- A provider item with the given numeric id. -/
def prodInfoOf (n : Nat) : ProdInfo :=
  { id := n, title := "t", handle := "h", product_type := "p",
    vendor := "v", tags := "" }

/-- A provider whose product endpoint always answers 200 with the given
catalog truncated to the requested limit. -/
def prodProviderOf (items : List ProdInfo) : ProductsProvider :=
  { configured := true
    fetch := fun limit _ => { status := 200, products := items.take limit } }

/-- A provider with no collections at all. -/
def collProviderEmpty : CollectionsProvider :=
  { configured := true
    smart := { status := 200, collections := [] }
    custom := { status := 200, collections := [] } }

/-- A 537-item catalog, the pagination-completeness scenario. -/
def c2Catalog : List ProdInfo := (List.range 537).map prodInfoOf

/-- A provider serving c2Catalog in since_id pages: page one is the
first 250 items, and passing the last seen id yields the next page —
250, 250 and 37 items in three pages. -/
def c2Provider : ProductsProvider :=
  { configured := true
    fetch := fun limit since =>
      match since with
      | none => { status := 200, products := c2Catalog.take limit }
      | some k =>
        { status := 200
          products := (c2Catalog.filter (fun p => decide (k < p.id))).take limit } }

/-- A provider with 150 unseen products, the circuit-breaker scenario. -/
def psvcC3 : ProductsProvider :=
  prodProviderOf ((List.range 150).map prodInfoOf)

/-- A provider that returns the same item twice in one page. -/
def psvcC5 : ProductsProvider :=
  prodProviderOf [prodInfoOf 7, prodInfoOf 7]

/-- A small duplicate-free provider for the double-scan scenario. -/
def psvcC5b : ProductsProvider :=
  prodProviderOf [prodInfoOf 1, prodInfoOf 2, prodInfoOf 3]

/-- A provider with 101 unseen products, just over the breaker
threshold. -/
def psvcC9 : ProductsProvider :=
  prodProviderOf ((List.range 101).map prodInfoOf)

/-- The scan operation that trips the breaker from the initial store. -/
def scanTripOp : Op := Op.scanOp psvcC9 collProviderEmpty 0

/-- The store after the breaker has tripped: reachable, paused, with the
auto-pause flag set. -/
def dbTrip : DB := applyOp db0 scanTripOp

/-- One pending product, id 11. -/
def dbC1 : DB :=
  { products := [sampleProduct "11" Status.pending]
    collections := [], seo := [], state := initState }

/-- One failed product, id 9. -/
def dbC4 : DB :=
  { products := [sampleProduct "9" Status.failed]
    collections := [], seo := [], state := initState }

/-- A mixed store: one failed and one pending product. -/
def dbC4mix : DB :=
  { products := [sampleProduct "1" Status.failed,
                 sampleProduct "2" Status.pending]
    collections := [], seo := [], state := initState }

/-- One pending product, id 31. -/
def dbC6 : DB :=
  { products := [sampleProduct "31" Status.pending]
    collections := [], seo := [], state := initState }

/-- One pending product, id 21. -/
def dbC7 : DB :=
  { products := [sampleProduct "21" Status.pending]
    collections := [], seo := [], state := initState }

/-- Five pending products, ids 1..5 — the batch-of-five scenario. -/
def dbC8 : DB :=
  { products := [sampleProduct "1" Status.pending,
                 sampleProduct "2" Status.pending,
                 sampleProduct "3" Status.pending,
                 sampleProduct "4" Status.pending,
                 sampleProduct "5" Status.pending]
    collections := [], seo := [], state := initState }

/-- A paused store holding one known pending product, id 41. -/
def dbC10 : DB :=
  { products := [sampleProduct "41" Status.pending]
    collections := [], seo := []
    state := { initState with is_paused := true } }

/-- The manual generation request for product 41. -/
def reqC10 : GenRequest := { item_id := "41", item_type := "product" }

/-! Helper lemmas about the discovery passes and the endpoint shapes. -/

set_option maxRecDepth 1000000

theorem passProducts_adds_mono (committed : List ProductRow) (now : Nat) :
    ∀ (l : List ProdInfo) (acc : PassResult ProductRow) (r : ProductRow),
      r ∈ acc.adds → r ∈ (passProducts committed now acc l).adds := by
  intro l
  induction l with
  | nil => intro acc r h; simpa [passProducts] using h
  | cons info rest ih =>
    intro acc r h
    by_cases hc :
        committed.any (fun q => decide (q.shopify_id = toString info.id)) = true
    · simp only [passProducts]
      rw [if_pos hc]
      exact ih _ r h
    · simp only [passProducts]
      rw [if_neg hc]
      exact ih _ r (List.mem_append_left _ h)

theorem passProducts_covers (committed : List ProductRow) (now : Nat) :
    ∀ (l : List ProdInfo) (acc : PassResult ProductRow) (info : ProdInfo),
      info ∈ l →
      ∃ r, r ∈ committed ++ (passProducts committed now acc l).adds ∧
        r.shopify_id = toString info.id ∧
        (r ∈ committed ∨ r.status = Status.pending) := by
  intro l
  induction l with
  | nil => intro acc info h; exact absurd h (List.not_mem_nil info)
  | cons a rest ih =>
    intro acc info h
    by_cases hc :
        committed.any (fun q => decide (q.shopify_id = toString a.id)) = true
    · rcases List.mem_cons.mp h with heq | hmem
      · subst heq
        rcases List.any_eq_true.mp hc with ⟨r, hr, hd⟩
        exact ⟨r, List.mem_append_left _ hr, of_decide_eq_true hd, Or.inl hr⟩
      · simp only [passProducts]
        rw [if_pos hc]
        exact ih _ info hmem
    · rcases List.mem_cons.mp h with heq | hmem
      · subst heq
        refine ⟨mkProductRow now info, ?_, rfl, Or.inr rfl⟩
        apply List.mem_append_right
        simp only [passProducts]
        rw [if_neg hc]
        apply passProducts_adds_mono
        exact List.mem_append_right _ (List.mem_singleton.mpr rfl)
      · simp only [passProducts]
        rw [if_neg hc]
        exact ih _ info hmem

theorem passProducts_no_new (committed : List ProductRow) (now : Nat) :
    ∀ (l : List ProdInfo) (acc : PassResult ProductRow),
      (∀ info ∈ l,
        committed.any (fun q => decide (q.shopify_id = toString info.id)) = true) →
      (passProducts committed now acc l).adds = acc.adds ∧
      (passProducts committed now acc l).newCount = acc.newCount := by
  intro l
  induction l with
  | nil => intro acc _; exact ⟨rfl, rfl⟩
  | cons a rest ih =>
    intro acc hall
    have hc := hall a (List.mem_cons_self a rest)
    simp only [passProducts]
    rw [if_pos hc]
    exact ih _ (fun info hi => hall info (List.mem_cons_of_mem a hi))

theorem passCollections_adds_mono (committed : List CollectionRow) (now : Nat) :
    ∀ (l : List CollInfo) (acc : PassResult CollectionRow) (r : CollectionRow),
      r ∈ acc.adds → r ∈ (passCollections committed now acc l).adds := by
  intro l
  induction l with
  | nil => intro acc r h; simpa [passCollections] using h
  | cons info rest ih =>
    intro acc r h
    by_cases hc :
        committed.any (fun q => decide (q.shopify_id = toString info.id)) = true
    · simp only [passCollections]
      rw [if_pos hc]
      exact ih _ r h
    · simp only [passCollections]
      rw [if_neg hc]
      exact ih _ r (List.mem_append_left _ h)

theorem passCollections_covers (committed : List CollectionRow) (now : Nat) :
    ∀ (l : List CollInfo) (acc : PassResult CollectionRow) (info : CollInfo),
      info ∈ l →
      ∃ r, r ∈ committed ++ (passCollections committed now acc l).adds ∧
        r.shopify_id = toString info.id ∧
        (r ∈ committed ∨ r.status = Status.pending) := by
  intro l
  induction l with
  | nil => intro acc info h; exact absurd h (List.not_mem_nil info)
  | cons a rest ih =>
    intro acc info h
    by_cases hc :
        committed.any (fun q => decide (q.shopify_id = toString a.id)) = true
    · rcases List.mem_cons.mp h with heq | hmem
      · subst heq
        rcases List.any_eq_true.mp hc with ⟨r, hr, hd⟩
        exact ⟨r, List.mem_append_left _ hr, of_decide_eq_true hd, Or.inl hr⟩
      · simp only [passCollections]
        rw [if_pos hc]
        exact ih _ info hmem
    · rcases List.mem_cons.mp h with heq | hmem
      · subst heq
        refine ⟨mkCollectionRow now info, ?_, rfl, Or.inr rfl⟩
        apply List.mem_append_right
        simp only [passCollections]
        rw [if_neg hc]
        apply passCollections_adds_mono
        exact List.mem_append_right _ (List.mem_singleton.mpr rfl)
      · simp only [passCollections]
        rw [if_neg hc]
        exact ih _ info hmem

theorem passCollections_no_new (committed : List CollectionRow) (now : Nat) :
    ∀ (l : List CollInfo) (acc : PassResult CollectionRow),
      (∀ info ∈ l,
        committed.any (fun q => decide (q.shopify_id = toString info.id)) = true) →
      (passCollections committed now acc l).adds = acc.adds ∧
      (passCollections committed now acc l).newCount = acc.newCount := by
  intro l
  induction l with
  | nil => intro acc _; exact ⟨rfl, rfl⟩
  | cons a rest ih =>
    intro acc hall
    have hc := hall a (List.mem_cons_self a rest)
    simp only [passCollections]
    rw [if_pos hc]
    exact ih _ (fun info hi => hall info (List.mem_cons_of_mem a hi))

theorem scan_all_paused (psvc : ProductsProvider) (csvc : CollectionsProvider)
    (now : Nat) (db : DB) (h : db.state.is_paused = true) :
    scan_all psvc csvc now db = (db, ScanResp.pausedErr) := by
  unfold scan_all
  rw [if_pos h]

theorem scan_all_conflict (psvc : ProductsProvider) (csvc : CollectionsProvider)
    (now : Nat) (db : DB) (h1 : db.state.is_paused = false)
    (h2 : scanViolates psvc csvc now db = true) :
    scan_all psvc csvc now db = (db, ScanResp.httpError) := by
  unfold scan_all
  rw [if_neg (by simp [h1]), if_pos h2]

theorem scan_all_ok_spec (psvc : ProductsProvider) (csvc : CollectionsProvider)
    (now : Nat) (db : DB) (hp : db.state.is_paused = false)
    (hv : scanViolates psvc csvc now db = false) :
    (scan_all psvc csvc now db).1.products =
      db.products ++ (scanPR psvc now db).adds ∧
    (scan_all psvc csvc now db).1.collections =
      db.collections ++ (scanCR csvc now db).adds ∧
    (scan_all psvc csvc now db).1.state = scanState psvc csvc now db ∧
    (scan_all psvc csvc now db).2 = ScanResp.ok
      { products_found := (scanPR psvc now db).newCount
        collections_found := (scanCR csvc now db).newCount
        total_products := (get_products psvc 250 none).length
        total_collections := (get_collections csvc).length
        existing_products := (scanPR psvc now db).existingCount
        existing_collections := (scanCR csvc now db).existingCount
        geo_processing_triggered :=
          decide (0 < (scanPR psvc now db).newCount + (scanCR csvc now db).newCount) &&
          !(scanState psvc csvc now db).is_paused } := by
  unfold scan_all
  rw [if_neg (by simp [hp]), if_neg (by simp [hv])]
  exact ⟨rfl, rfl, rfl, rfl⟩

theorem scanState_is_paused (psvc : ProductsProvider) (csvc : CollectionsProvider)
    (now : Nat) (db : DB) :
    (scanState psvc csvc now db).is_paused =
      (if 100 < scanTotalNew psvc csvc now db then true
       else db.state.is_paused) := rfl

theorem scanState_auto (psvc : ProductsProvider) (csvc : CollectionsProvider)
    (now : Nat) (db : DB) :
    (scanState psvc csvc now db).auto_pause_triggered =
      (if 100 < scanTotalNew psvc csvc now db then true
       else db.state.auto_pause_triggered) := rfl

theorem flags_preserved_process (env : ProcEnv) (now : Nat) (db : DB) :
    (process_pending_items env now db).1.state.is_paused = db.state.is_paused ∧
    (process_pending_items env now db).1.state.auto_pause_triggered =
      db.state.auto_pause_triggered := by
  unfold process_pending_items
  split
  · exact ⟨rfl, rfl⟩
  · split
    · exact ⟨rfl, rfl⟩
    · exact ⟨rfl, rfl⟩

theorem state_preserved_generate (env : ProcEnv) (now : Nat) (db : DB)
    (req : GenRequest) :
    (generate_content env now db req).1.state = db.state := by
  unfold generate_content
  repeat first | rfl | split

theorem pauseInvariant :
    ∀ db : DB, Reachable db →
      db.state.is_paused = false → db.state.auto_pause_triggered = false := by
  intro db h
  induction h with
  | init => intro _; rfl
  | next db' op hr ih =>
    cases op with
    | toggleOp => intro _; rfl
    | processOp env now =>
      intro hp
      have h2 := flags_preserved_process env now db'
      show (process_pending_items env now db').1.state.auto_pause_triggered = false
      rw [h2.2]
      apply ih
      have hp' : (process_pending_items env now db').1.state.is_paused = false := hp
      rw [h2.1] at hp'
      exact hp'
    | generateOp env req now =>
      intro hp
      have h2 := state_preserved_generate env now db' req
      show (generate_content env now db' req).1.state.auto_pause_triggered = false
      rw [h2]
      apply ih
      have hp' : (generate_content env now db' req).1.state.is_paused = false := hp
      rw [h2] at hp'
      exact hp'
    | scanOp psvc csvc now =>
      intro hp
      have hp' : (scan_all psvc csvc now db').1.state.is_paused = false := hp
      show (scan_all psvc csvc now db').1.state.auto_pause_triggered = false
      cases hb : db'.state.is_paused with
      | true =>
        rw [scan_all_paused psvc csvc now db' hb] at hp'
        have hcontra : db'.state.is_paused = false := hp'
        rw [hb] at hcontra
        exact absurd hcontra (by decide)
      | false =>
        have hauto := ih hb
        by_cases hv : scanViolates psvc csvc now db' = true
        · rw [scan_all_conflict psvc csvc now db' hb hv]
          exact hauto
        · have hv' : scanViolates psvc csvc now db' = false := by
            rwa [Bool.not_eq_true] at hv
          obtain ⟨-, -, hS, -⟩ := scan_all_ok_spec psvc csvc now db' hb hv'
          rw [hS, scanState_is_paused] at hp'
          rw [hS, scanState_auto]
          by_cases ht : 100 < scanTotalNew psvc csvc now db'
          · rw [if_pos ht] at hp'
            exact absurd hp' (by decide)
          · rw [if_neg ht] at hp' ⊢
            exact hauto

/-! The claims. -/

/-- C1, counterexample: with oracles whose Shopify update reports
failure for product 11, one Batch Processor run still marks the item
completed with seo_written set and appends an audit row, even though the
write-back call was made and reported failure. -/
theorem c1_writeback_failure_counterexample :
    envNoWriteback.updateOk "11" = false ∧
    ExtCall.updateProduct "11" ∈ (process_pending_items envNoWriteback 3 dbC1).2 ∧
    ((process_pending_items envNoWriteback 3 dbC1).1.products.map
      (fun r => (r.status, r.seo_written))) = [(Status.completed, true)] ∧
    (process_pending_items envNoWriteback 3 dbC1).1.seo.length = 1 := by
  decide

/-- C1, amended: once keyword research and generation succeed for an
item, the Batch Processor marks it completed and produces the audit row
regardless of the write-back outcome — the row and the audit do not
depend on the update oracle at all; the write-back boolean is only
logged. -/
theorem c1_writeback_ignored (env : ProcEnv) (now : Nat) (p : ProductRow)
    (raw : GeoContent)
    (hkw : env.kwOf p.shopify_id ≠ [])
    (hgen : env.genOf p.shopify_id = some raw) :
    (processOneProduct env now p).row.status = Status.completed ∧
    (processOneProduct env now p).row.seo_written = true ∧
    (processOneProduct env now p).audit =
      some (mkSeoRecord now "product" p.shopify_id p.title
        (env.kwOf p.shopify_id) (postprocessGeo raw)) ∧
    ∀ f : String → Bool,
      (processOneProduct { env with updateOk := f } now p).row =
        (processOneProduct env now p).row ∧
      (processOneProduct { env with updateOk := f } now p).audit =
        (processOneProduct env now p).audit := by
  simp [processOneProduct, hkw, hgen]

/-- C1, witness for the amended theorem at product 11 with a failing
update oracle. -/
theorem c1_writeback_ignored_witness :
    (processOneProduct envNoWriteback 3 (sampleProduct "11" Status.pending)).row.status =
      Status.completed ∧
    (processOneProduct envNoWriteback 3 (sampleProduct "11" Status.pending)).row.seo_written =
      true := by
  have h := c1_writeback_ignored envNoWriteback 3
    (sampleProduct "11" Status.pending) geoSample (by decide) rfl
  exact ⟨h.1, h.2.1⟩

/-- C2, counterexample: against a provider holding 537 items in three
since_id pages of 250, 250 and 37, the listing used by the scan returns
only the 250 items of the first page, not 537 — there is no pagination
loop. -/
theorem c2_pagination_counterexample :
    c2Catalog.length = 537 ∧
    (c2Provider.fetch 250 none).products.length = 250 ∧
    (c2Provider.fetch 250 (some 249)).products.length = 250 ∧
    (c2Provider.fetch 250 (some 499)).products.length = 37 ∧
    (get_products c2Provider 250 none).length = 250 ∧
    ¬(get_products c2Provider 250 none).length = 537 := by
  decide

/-- C2, amended: the listing operation issues exactly one request and
returns exactly that single page's items whenever the provider answers
200; it never follows a next page. -/
theorem c2_single_page (svc : ProductsProvider) (limit : Nat)
    (sid : Option Nat) (hc : svc.configured = true)
    (hs : (svc.fetch limit sid).status = 200) :
    get_products svc limit sid = (svc.fetch limit sid).products := by
  simp [get_products, hc, hs]

/-- C2, witness for the amended theorem at the 537-item provider. -/
theorem c2_single_page_witness :
    get_products c2Provider 250 none = (c2Provider.fetch 250 none).products :=
  c2_single_page c2Provider 250 none rfl rfl

/-- C3: when a scan of an unpaused store discovers more than 100 new
items in total and its commit succeeds, the resulting state has
is_paused and auto_pause_triggered both true, and every listed item is
nonetheless present in the resulting mirror — pre-existing rows as they
were, newly discovered ones with status pending. -/
theorem c3_circuit_breaker (psvc : ProductsProvider)
    (csvc : CollectionsProvider) (now : Nat) (db : DB)
    (hp : db.state.is_paused = false)
    (hv : scanViolates psvc csvc now db = false)
    (hn : 100 < scanTotalNew psvc csvc now db) :
    (scan_all psvc csvc now db).1.state.is_paused = true ∧
    (scan_all psvc csvc now db).1.state.auto_pause_triggered = true ∧
    (∀ info ∈ get_products psvc 250 none,
      ∃ r, r ∈ (scan_all psvc csvc now db).1.products ∧
        r.shopify_id = toString info.id ∧
        (r ∈ db.products ∨ r.status = Status.pending)) ∧
    (∀ info ∈ get_collections csvc,
      ∃ r, r ∈ (scan_all psvc csvc now db).1.collections ∧
        r.shopify_id = toString info.id ∧
        (r ∈ db.collections ∨ r.status = Status.pending)) := by
  obtain ⟨hP, hC, hS, -⟩ := scan_all_ok_spec psvc csvc now db hp hv
  refine ⟨?_, ?_, ?_, ?_⟩
  · rw [hS, scanState_is_paused, if_pos hn]
  · rw [hS, scanState_auto, if_pos hn]
  · intro info hi
    rw [hP]
    exact passProducts_covers db.products now _ ⟨[], 0, 0⟩ info hi
  · intro info hi
    rw [hC]
    exact passCollections_covers db.collections now _ ⟨[], 0, 0⟩ info hi

/-- C3, witness: scanning 150 unseen products from the fresh store trips
the breaker with both flags set. -/
theorem c3_circuit_breaker_witness :
    (scan_all psvcC3 collProviderEmpty 0 db0).1.state.is_paused = true ∧
    (scan_all psvcC3 collProviderEmpty 0 db0).1.state.auto_pause_triggered =
      true := by
  have h := c3_circuit_breaker psvcC3 collProviderEmpty 0 db0 rfl
    (by decide) (by decide)
  exact ⟨h.1, h.2.1⟩

/-- C4, counterexample: a store whose only product is failed gives an
empty processing slice, and a Batch Processor run leaves the row failed
and untouched — a failed item never transitions back to processing. -/
theorem c4_failed_not_selected_counterexample :
    selectedProducts dbC4 = [] ∧
    (process_pending_items envOk 5 dbC4).1.products =
      [sampleProduct "9" Status.failed] := by
  decide

/-- C4, amended: the Batch Processor's bounded slices draw exclusively
from items whose status is pending; every selected product or collection
is pending, so failed items are never picked up again. -/
theorem c4_selected_pending :
    (∀ (db : DB) (p : ProductRow),
      p ∈ selectedProducts db → p.status = Status.pending) ∧
    (∀ (db : DB) (c : CollectionRow),
      c ∈ selectedCollections db → c.status = Status.pending) := by
  constructor
  · intro db p h
    have h1 := List.take_subset 2
      (db.products.filter (fun q => decide (q.status = Status.pending))) h
    exact of_decide_eq_true (List.mem_filter.mp h1).2
  · intro db c h
    have h1 := List.take_subset 1
      (db.collections.filter (fun q => decide (q.status = Status.pending))) h
    exact of_decide_eq_true (List.mem_filter.mp h1).2

/-- C4, witness for the amended theorem on a store with one failed and
one pending product. -/
theorem c4_selected_pending_witness :
    (sampleProduct "2" Status.pending).status = Status.pending :=
  c4_selected_pending.1 dbC4mix (sampleProduct "2" Status.pending) (by decide)

/-- C5, counterexample: a provider returning the same item twice in one
scan pass gets that externalId added to the session twice (a duplicate
insert, counted as two new items); the commit then violates the unique
index, the scan returns the HTTP 500 outcome and the store is left
unchanged. -/
theorem c5_intra_scan_duplicate_counterexample :
    ((passProducts [] 0 ⟨[], 0, 0⟩ [prodInfoOf 7, prodInfoOf 7]).adds.map
      (fun r => r.shopify_id)) = ["7", "7"] ∧
    (passProducts [] 0 ⟨[], 0, 0⟩ [prodInfoOf 7, prodInfoOf 7]).newCount = 2 ∧
    (scan_all psvcC5 collProviderEmpty 0 db0).2 = ScanResp.httpError ∧
    (scan_all psvcC5 collProviderEmpty 0 db0).1 = db0 := by
  decide

/-- C5, amended: for an unchanged provider catalog, a second scan right
after a successful, non-tripping scan adds nothing — the mirror is
unchanged and the reported new counts are zero. -/
theorem c5_second_scan_idempotent (psvc : ProductsProvider)
    (csvc : CollectionsProvider) (now1 now2 : Nat) (db : DB)
    (hp : db.state.is_paused = false)
    (hv : scanViolates psvc csvc now1 db = false)
    (hp2 : (scan_all psvc csvc now1 db).1.state.is_paused = false) :
    (scan_all psvc csvc now2 (scan_all psvc csvc now1 db).1).1.products =
      (scan_all psvc csvc now1 db).1.products ∧
    (scan_all psvc csvc now2 (scan_all psvc csvc now1 db).1).1.collections =
      (scan_all psvc csvc now1 db).1.collections ∧
    ∃ r : ScanOk,
      (scan_all psvc csvc now2 (scan_all psvc csvc now1 db).1).2 =
        ScanResp.ok r ∧
      r.products_found = 0 ∧ r.collections_found = 0 := by
  obtain ⟨hP1, hC1, -, -⟩ := scan_all_ok_spec psvc csvc now1 db hp hv
  have hcovP : ∀ info ∈ get_products psvc 250 none,
      (scan_all psvc csvc now1 db).1.products.any
        (fun q => decide (q.shopify_id = toString info.id)) = true := by
    intro info hi
    obtain ⟨r, hr, hid, -⟩ :=
      passProducts_covers db.products now1 (get_products psvc 250 none)
        ⟨[], 0, 0⟩ info hi
    rw [hP1]
    exact List.any_eq_true.mpr ⟨r, hr, decide_eq_true hid⟩
  have hcovC : ∀ info ∈ get_collections csvc,
      (scan_all psvc csvc now1 db).1.collections.any
        (fun q => decide (q.shopify_id = toString info.id)) = true := by
    intro info hi
    obtain ⟨r, hr, hid, -⟩ :=
      passCollections_covers db.collections now1 (get_collections csvc)
        ⟨[], 0, 0⟩ info hi
    rw [hC1]
    exact List.any_eq_true.mpr ⟨r, hr, decide_eq_true hid⟩
  have hnoP := passProducts_no_new (scan_all psvc csvc now1 db).1.products now2
    (get_products psvc 250 none) ⟨[], 0, 0⟩ hcovP
  have hnoC := passCollections_no_new (scan_all psvc csvc now1 db).1.collections
    now2 (get_collections csvc) ⟨[], 0, 0⟩ hcovC
  have hPadds : (scanPR psvc now2 (scan_all psvc csvc now1 db).1).adds = [] :=
    hnoP.1
  have hPnew : (scanPR psvc now2 (scan_all psvc csvc now1 db).1).newCount = 0 :=
    hnoP.2
  have hCadds : (scanCR csvc now2 (scan_all psvc csvc now1 db).1).adds = [] :=
    hnoC.1
  have hCnew : (scanCR csvc now2 (scan_all psvc csvc now1 db).1).newCount = 0 :=
    hnoC.2
  have hv2 : scanViolates psvc csvc now2 (scan_all psvc csvc now1 db).1 = false := by
    unfold scanViolates
    rw [hPadds, hCadds]
    rfl
  obtain ⟨hP2, hC2, -, hR2⟩ :=
    scan_all_ok_spec psvc csvc now2 (scan_all psvc csvc now1 db).1 hp2 hv2
  refine ⟨?_, ?_, ?_⟩
  · rw [hP2, hPadds, List.append_nil]
  · rw [hC2, hCadds, List.append_nil]
  · exact ⟨_, hR2, hPnew, hCnew⟩

/-- C5, witness for the amended theorem: scanning the same three-item
catalog twice leaves the mirror of the first scan unchanged. -/
theorem c5_second_scan_idempotent_witness :
    (scan_all psvcC5b collProviderEmpty 1
        (scan_all psvcC5b collProviderEmpty 0 db0).1).1.products =
      (scan_all psvcC5b collProviderEmpty 0 db0).1.products ∧
    (scan_all psvcC5b collProviderEmpty 1
        (scan_all psvcC5b collProviderEmpty 0 db0).1).1.collections =
      (scan_all psvcC5b collProviderEmpty 0 db0).1.collections := by
  have h := c5_second_scan_idempotent psvcC5b collProviderEmpty 0 1 db0 rfl
    (by decide) (by decide)
  exact ⟨h.1, h.2.1⟩

/-- C6, counterexample: processing a pending item issues exactly one
generation call — the GEO content call — with no word count computed and
no metadata-only variant; the trace of a full successful run is keyword
research, GEO generation, Shopify update. -/
theorem c6_single_mode_counterexample :
    (process_pending_items envOk 2 dbC6).2 =
      [ExtCall.researchKeywords "31", ExtCall.generateGeoContent "31",
       ExtCall.updateProduct "31"] ∧
    ((process_pending_items envOk 2 dbC6).2.filter isGenerationCall) =
      [ExtCall.generateGeoContent "31"] := by
  decide

/-- C6, amended: the Batch Processor has a single generation mode: for
every item the generation calls it makes are exactly one GEO content
call (none when keyword research already came back empty); no
description word count is consulted — the mirror row does not even carry
a description. -/
theorem c6_single_generation_mode (env : ProcEnv) (now : Nat)
    (p : ProductRow) :
    (processOneProduct env now p).calls.filter isGenerationCall =
      (if env.kwOf p.shopify_id = [] then []
       else [ExtCall.generateGeoContent p.shopify_id]) := by
  by_cases h : env.kwOf p.shopify_id = []
  · simp [processOneProduct, h, isGenerationCall]
  · cases hg : env.genOf p.shopify_id with
    | none => simp [processOneProduct, h, hg, isGenerationCall]
    | some raw =>
      by_cases hd : (postprocessGeo raw).ai_description = ""
      · simp [processOneProduct, h, hg, hd, isGenerationCall]
      · simp [processOneProduct, h, hg, hd, isGenerationCall]

/-- C7, counterexample: when the Content Generator's reply is
unparsable (the generation oracle takes its exception path every time),
the Batch Processor marks the item failed, not completed, and appends no
audit row — there is no fallback in the generator it uses. -/
theorem c7_unparsable_fails_counterexample :
    ((process_pending_items envUnparsable 1 dbC7).1.products.map
      (fun r => r.status)) = [Status.failed] ∧
    (process_pending_items envUnparsable 1 dbC7).1.seo = [] := by
  decide

/-- C7, amended: the deterministic fallback exists only in the legacy
AIContentGenerator client, whose parse step returns the fallback object
on any unparsable reply; the Batch Processor, however, uses the
GEOAIService, whose unparsable replies surface as an empty result and
mark the item failed with no audit row. -/
theorem c7_fallback_location :
    (∀ t v : String, aiGenParseResponse none t v = aiGenFallbackContent t v) ∧
    (∀ (env : ProcEnv) (now : Nat) (p : ProductRow),
      env.kwOf p.shopify_id ≠ [] → env.genOf p.shopify_id = none →
      (processOneProduct env now p).row.status = Status.failed ∧
      (processOneProduct env now p).audit = none) := by
  constructor
  · intro t v; rfl
  · intro env now p h1 h2
    simp [processOneProduct, h1, h2]

/-- C7, witness for the amended theorem at product 21 with the
always-unparsable oracle. -/
theorem c7_fallback_location_witness :
    (processOneProduct envUnparsable 1
      (sampleProduct "21" Status.pending)).row.status = Status.failed := by
  have h := c7_fallback_location.2 envUnparsable 1
    (sampleProduct "21" Status.pending) (by decide) rfl
  exact h.1

/-- C8, counterexample: with five pending products and oracles failing
exactly for item 3, one Batch Processor run completes items 1 and 2 and
leaves items 3, 4 and 5 pending — the slice is bounded at two products
per run, so no batch of five exists and items 4 and 5 do not reach
completed. -/
theorem c8_slice_bound_counterexample :
    ((process_pending_items envFailAt3 2 dbC8).1.products.map
      (fun r => r.status)) =
      [Status.completed, Status.completed, Status.pending, Status.pending,
       Status.pending] := by
  decide

/-- C8, amended: within the bounded slice, failure is isolated: when the
first of two pending products fails (keyword research comes back empty)
and the second succeeds, the run marks the first failed, still processes
the second to completed, and appends exactly the second item's audit
row. -/
theorem c8_isolation (p1 p2 : ProductRow) (env : ProcEnv) (now : Nat)
    (st : SystemStateRec) (seo0 : List SEORecord) (raw : GeoContent)
    (hs1 : p1.status = Status.pending) (hs2 : p2.status = Status.pending)
    (hne : p1.shopify_id ≠ p2.shopify_id)
    (hpause : st.is_paused = false)
    (hgeo : st.geo_optimization_enabled = true)
    (hkw1 : env.kwOf p1.shopify_id = [])
    (hkw2 : env.kwOf p2.shopify_id ≠ [])
    (hgen2 : env.genOf p2.shopify_id = some raw) :
    ((process_pending_items env now ⟨[p1, p2], [], seo0, st⟩).1.products.map
      (fun r => r.status)) = [Status.failed, Status.completed] ∧
    (process_pending_items env now ⟨[p1, p2], [], seo0, st⟩).1.seo =
      seo0 ++ [mkSeoRecord now "product" p2.shopify_id p2.title
        (env.kwOf p2.shopify_id) (postprocessGeo raw)] := by
  have hne2 : p2.shopify_id ≠ p1.shopify_id := Ne.symm hne
  constructor <;>
    simp [process_pending_items, selectedProducts, selectedCollections,
      runProductSlice, runCollectionSlice, processOneProduct, setProductById,
      hs1, hs2, hkw1, hkw2, hgen2, hpause, hgeo, hne, hne2]

/-- C8, witness for the amended theorem on two concrete pending products
where the oracles fail for the first. -/
theorem c8_isolation_witness :
    ((process_pending_items envFailAt1 7
      ⟨[sampleProduct "1" Status.pending, sampleProduct "2" Status.pending],
       [], [], initState⟩).1.products.map (fun r => r.status)) =
      [Status.failed, Status.completed] := by
  have h := c8_isolation (sampleProduct "1" Status.pending)
    (sampleProduct "2" Status.pending) envFailAt1 7 initState [] geoSample
    rfl rfl (by decide) rfl rfl (by decide) (by decide) rfl
  exact h.1

/-- C9: the auto_pause_triggered flag, once set, goes from true to false
only through the pause toggle, and only from a paused state — that is,
only an explicit unpause clears it; no scan, batch run or manual
generation ever does, over every store reachable from the initial one. -/
theorem c9_autopause_cleared_only_by_unpause (db : DB) (op : Op)
    (hr : Reachable db)
    (hauto : db.state.auto_pause_triggered = true)
    (hclear : (applyOp db op).state.auto_pause_triggered = false) :
    op = Op.toggleOp ∧ db.state.is_paused = true := by
  cases op with
  | toggleOp =>
    refine ⟨rfl, ?_⟩
    cases hb : db.state.is_paused with
    | false => exact absurd hauto (by simp [pauseInvariant db hr hb])
    | true => rfl
  | scanOp psvc csvc now =>
    exfalso
    cases hb : db.state.is_paused with
    | false => exact absurd hauto (by simp [pauseInvariant db hr hb])
    | true =>
      have hc : (scan_all psvc csvc now db).1.state.auto_pause_triggered =
        false := hclear
      rw [scan_all_paused psvc csvc now db hb] at hc
      have hc' : db.state.auto_pause_triggered = false := hc
      rw [hauto] at hc'
      exact absurd hc' (by decide)
  | processOp env now =>
    exfalso
    have h2 := (flags_preserved_process env now db).2
    have hc : (process_pending_items env now db).1.state.auto_pause_triggered =
      false := hclear
    rw [h2, hauto] at hc
    exact absurd hc (by decide)
  | generateOp env req now =>
    exfalso
    have h2 := state_preserved_generate env now db req
    have hc : (generate_content env now db req).1.state.auto_pause_triggered =
      false := hclear
    rw [h2, hauto] at hc
    exact absurd hc (by decide)

/-- C9, witness: from the reachable tripped store (101 new items were
scanned from the fresh store), the clearing operation is the toggle and
the store was indeed paused, so the toggle is an unpause. -/
theorem c9_autopause_cleared_only_by_unpause_witness :
    Op.toggleOp = Op.toggleOp ∧ dbTrip.state.is_paused = true := by
  have h := c9_autopause_cleared_only_by_unpause dbTrip Op.toggleOp
    (Reachable.next db0 scanTripOp Reachable.init) (by decide) rfl
  exact h

/-- C10: the manual generation endpoint ignores the pause gate and never
performs a catalog write-back: for a known item of either kind, even
with is_paused true, a successful generation yields the success
response, marks the item completed with seo_written and geo_optimized
set and processed_at stamped, appends the audit row — and the calls made
are exactly keyword research and generation, never a product update. -/
theorem c10_manual_bypass :
    (∀ (env : ProcEnv) (now : Nat) (db : DB) (req : GenRequest)
      (p : ProductRow) (raw : GeoContent),
      db.state.is_paused = true →
      req.item_type = "product" →
      findProduct db req.item_id = some p →
      env.genOf req.item_id = some raw →
      (generate_content env now db req).2.1 = GenResp.success ∧
      (generate_content env now db req).1.products =
        setProductById db.products
          { p with status := Status.completed, seo_written := true,
                   geo_optimized := true, processed_at := some now,
                   keywords_researched := some (env.kwOf req.item_id) } ∧
      (generate_content env now db req).1.seo =
        db.seo ++ [mkSeoRecord now "product" req.item_id p.title
          (env.kwOf req.item_id) (postprocessGeo raw)] ∧
      (generate_content env now db req).2.2 =
        [ExtCall.researchKeywords req.item_id,
         ExtCall.generateGeoContent req.item_id]) ∧
    (∀ (env : ProcEnv) (now : Nat) (db : DB) (req : GenRequest)
      (cl : CollectionRow) (raw : GeoContent),
      db.state.is_paused = true →
      req.item_type = "collection" →
      findCollection db req.item_id = some cl →
      env.genOf req.item_id = some raw →
      (generate_content env now db req).2.1 = GenResp.success ∧
      (generate_content env now db req).1.collections =
        setCollectionById db.collections
          { cl with status := Status.completed, seo_written := true,
                    geo_optimized := true, processed_at := some now,
                    keywords_researched := some (env.kwOf req.item_id) } ∧
      (generate_content env now db req).1.seo =
        db.seo ++ [mkSeoRecord now "collection" req.item_id cl.title
          (env.kwOf req.item_id) (postprocessGeo raw)] ∧
      (generate_content env now db req).2.2 =
        [ExtCall.researchKeywords req.item_id,
         ExtCall.generateGeoContent req.item_id]) := by
  constructor
  · intro env now db req p raw hpause hty hfind hgen
    simp [generate_content, hty, hfind, hgen]
  · intro env now db req cl raw hpause hty hfind hgen
    have hty2 : ¬req.item_type = "product" := by rw [hty]; decide
    simp [generate_content, hty, hty2, hfind, hgen]

/-- C10, witness: in the paused store, requesting generation for product
41 succeeds and makes no update call. -/
theorem c10_manual_bypass_witness :
    (generate_content envOk 9 dbC10 reqC10).2.1 = GenResp.success ∧
    (generate_content envOk 9 dbC10 reqC10).2.2 =
      [ExtCall.researchKeywords "41", ExtCall.generateGeoContent "41"] := by
  have h := c10_manual_bypass.1 envOk 9 dbC10 reqC10
    (sampleProduct "41" Status.pending) geoSample rfl rfl (by decide) rfl
  exact ⟨h.1, h.2.2.2⟩

end SeoAgent
